import Mathlib

/-!
# Verification of the lazylogger navigation core

Shallow embedding of the navigation state machine, the cascading resource
loader and the selectable-list model of `src/app.rs`, `src/keymaps.rs` and
the helpers they call (`get_events` appears in `src/main.rs`).

Machine integers: Rust `usize` arithmetic is modelled on `Nat` with explicit
wrap-around modulo `2^64` where an overflow can actually occur
(`items.len() - 1` in `OptionList::next`).  A debug build of the source
panics at that subtraction instead of wrapping; the wrap model is the
release-build semantics, and the one place where the two differ is flagged
in the theorems concerned.

Rust panics (`unwrap` on `None`/`Err`) are modelled by returning `none`
from the function concerned: a `none` result of the tick function means the
process aborted.
-/

namespace LazyLogger

/-- `usize::MAX + 1`. -/
def USIZE : Nat := 18446744073709551616

/-- Wrapping `n - 1` on `usize` (release-build semantics of
`self.items.len() - 1`): for `n ≥ 1` this is `n - 1`, for `n = 0` it is
`usize::MAX`.  A debug build panics on the `n = 0` case instead. -/
def usizeSub1 (n : Nat) : Nat := (n + (USIZE - 1)) % USIZE

/-- `usize::saturating_add` on the values that occur here. -/
def usizeSatAdd (a b : Nat) : Nat := min (a + b) (USIZE - 1)

/-- ratatui `ListState`: a viewport offset plus an optional selected index. -/
structure ListState where
  offset : Nat
  selected : Option Nat
  deriving Repr, DecidableEq

/-- `ListState::default()`. -/
def ListState.default : ListState := { offset := 0, selected := none }

/-- ratatui `ListState::select`: stores the index; selecting `None` also
resets the viewport offset. -/
def ListState.select (s : ListState) (idx : Option Nat) : ListState :=
  match idx with
  | none => { offset := 0, selected := none }
  | some i => { s with selected := some i }

/-- ratatui `ScrollbarState`: content length and position (builder-style
setters, no clamping). -/
structure ScrollbarState where
  content_length : Nat
  position : Nat
  deriving Repr, DecidableEq

def ScrollbarState.default : ScrollbarState := { content_length := 0, position := 0 }

/-- `ScrollbarState::content_length` (plain setter). -/
def ScrollbarState.setContentLength (s : ScrollbarState) (n : Nat) : ScrollbarState :=
  { s with content_length := n }

/-- `ScrollbarState::position` (plain setter). -/
def ScrollbarState.setPosition (s : ScrollbarState) (n : Nat) : ScrollbarState :=
  { s with position := n }

/-- `OptionList` from `src/app.rs`: an ordered sequence of strings plus a
`ListState`. -/
structure OptionList where
  items : List String
  state : ListState
  deriving Repr, DecidableEq

/-- `OptionList::new()`. -/
def OptionList.new : OptionList := { items := [], state := ListState.default }

/-- `OptionList::next` (src/app.rs lines 38-45).  The guard
`i < self.items.len() - 1` is `usize` arithmetic: on an empty list it
compares against `usize::MAX` (release build; a debug build panics). -/
def OptionList.next (l : OptionList) : OptionList :=
  let i : Nat :=
    match l.state.selected with
    | some i => if i < usizeSub1 l.items.length then i + 1 else i
    | none => 0
  { l with state := l.state.select (some i) }

/-- `OptionList::previous` (src/app.rs lines 47-54). -/
def OptionList.previous (l : OptionList) : OptionList :=
  let i : Nat :=
    match l.state.selected with
    | some i => if i > 0 then i - 1 else i
    | none => 0
  { l with state := l.state.select (some i) }

/-- `OptionList::selected` (src/app.rs lines 56-62): the element at the
stored index, if any. -/
def OptionList.selected (l : OptionList) : Option String :=
  match l.state.selected with
  | some i => l.items.get? i
  | none => none

/-- `FromIterator<String> for OptionList` (src/app.rs lines 65-74): fresh
default state, then select index 0 when non-empty. -/
def OptionList.from_iter (items : List String) : OptionList :=
  { items := items
    state := if items.isEmpty then ListState.default
             else ListState.default.select (some 0) }

/-- `CurrentScreen` from `src/app.rs`.  The enum in app.rs declares `Main`,
`SettingConfig` and `Exiting`; `keymaps.rs` in the same snapshot also
targets a `LogDetails` variant, which is included so that
`main_screen_keymaps` can be embedded as written. -/
inductive CurrentScreen where
  | Main
  | SettingConfig
  | Exiting
  | LogDetails
  deriving Repr, DecidableEq

/-- `SettingConfig` from `src/app.rs`: the active configuration stage. -/
inductive SettingConfig where
  | Profile
  | Cluster
  | Service
  deriving Repr, DecidableEq

/-- The `ProfileBox`/`ClusterBox`/`ServiceBox`/`EventLogBox` structs all
hold a `ScrollbarState` and a `vertical_scroll : usize`. -/
structure ScrollBox where
  vertical_scroll_state : ScrollbarState
  vertical_scroll : Nat
  deriving Repr, DecidableEq

def ScrollBox.default : ScrollBox :=
  { vertical_scroll_state := ScrollbarState.default, vertical_scroll := 0 }

/-- The `App` state from `src/app.rs` (fields that carry navigation and
loader state; the colour `Theme` is pure render data and is omitted). -/
structure App where
  profile : String
  profiles : OptionList
  cluster : String
  clusters : OptionList
  service : String
  services : OptionList
  service_events : OptionList
  current_screen : CurrentScreen
  setting_config : Option SettingConfig
  profile_box : ScrollBox
  cluster_box : ScrollBox
  service_box : ScrollBox
  event_box : ScrollBox
  viewing_logs : Bool
  deriving Repr, DecidableEq

/-- `App::new()`. -/
def App.new : App :=
  { profile := ""
    profiles := OptionList.new
    cluster := ""
    clusters := OptionList.new
    service := ""
    services := OptionList.new
    service_events := OptionList.new
    current_screen := CurrentScreen.Main
    setting_config := none
    profile_box := ScrollBox.default
    cluster_box := ScrollBox.default
    service_box := ScrollBox.default
    event_box := ScrollBox.default
    viewing_logs := false }

/-- `App::toggle_setting` (src/app.rs lines 501-517). -/
def App.toggle_setting (a : App) : App :=
  match a.setting_config with
  | some SettingConfig.Profile => { a with setting_config := some SettingConfig.Cluster }
  | some SettingConfig.Cluster => { a with setting_config := some SettingConfig.Service }
  | some SettingConfig.Service => { a with setting_config := some SettingConfig.Profile }
  | none => { a with setting_config := some SettingConfig.Profile }

/-- The symbolic key-press alphabet dispatched by `run_app` (crossterm
`KeyCode`, restricted to the codes the handlers inspect). -/
inductive KeyCode where
  | char (c : Char)
  | down
  | up
  | enter
  | esc
  | tab
  | other
  deriving Repr, DecidableEq

/-- `main_screen_keymaps` from `src/keymaps.rs` (the `Main` screen
handler called by `run_app`). -/
def main_screen_keymaps (k : KeyCode) (a : App) : App :=
  match k with
  | KeyCode.char c =>
      if c = 'c' then
        { a with current_screen := CurrentScreen.SettingConfig
                 setting_config := some SettingConfig.Profile }
      else if c = 'q' then
        { a with current_screen := CurrentScreen.Exiting }
      else if c = 'e' then
        { a with viewing_logs := !a.viewing_logs }
      else if c = 'r' then
        if a.viewing_logs then { a with service_events := OptionList.new } else a
      else a
  | KeyCode.down =>
      if a.viewing_logs then { a with service_events := a.service_events.next } else a
  | KeyCode.up =>
      if a.viewing_logs then { a with service_events := a.service_events.previous } else a
  | KeyCode.enter =>
      if a.viewing_logs then { a with current_screen := CurrentScreen.LogDetails } else a
  | _ => a

/-- `log_details_keymaps` from `src/keymaps.rs`. -/
def log_details_keymaps (k : KeyCode) (a : App) : App :=
  match k with
  | KeyCode.char c =>
      if c = 'q' then { a with current_screen := CurrentScreen.Main } else a
  | KeyCode.esc => { a with current_screen := CurrentScreen.Main }
  | _ => a

/-- The `Enter` arm of the `SettingConfig` handler (src/app.rs lines
235-269): commit the active stage's selection, with cascading
invalidation of everything downstream. -/
def confirmStage (a : App) : App :=
  match a.setting_config with
  | none => a
  | some SettingConfig.Profile =>
      match a.profiles.selected with
      | some p =>
          { a with profile := p
                   setting_config := some SettingConfig.Cluster
                   clusters := OptionList.new
                   services := OptionList.new
                   cluster := ""
                   service := ""
                   service_events := OptionList.new }
      | none => a
  | some SettingConfig.Cluster =>
      match a.clusters.selected with
      | some c =>
          { a with cluster := c
                   setting_config := some SettingConfig.Service
                   services := OptionList.new
                   service := "" }
      | none => a
  | some SettingConfig.Service =>
      match a.services.selected with
      | some s =>
          { a with service := s
                   current_screen := CurrentScreen.Main
                   setting_config := none }
      | none => a

/-- The `Down` arm of the `SettingConfig` handler (src/app.rs lines
270-324): advance the active stage's list; bump that stage's scroll by one
only when the selection actually changed. -/
def navDown (a : App) : App :=
  match a.setting_config with
  | none => a
  | some SettingConfig.Profile =>
      let previously := a.profiles.state.selected
      let profiles := a.profiles.next
      if profiles.state.selected ≠ previously then
        let vs := usizeSatAdd a.profile_box.vertical_scroll 1
        { a with profiles := profiles
                 profile_box := { vertical_scroll := vs
                                  vertical_scroll_state :=
                                    a.profile_box.vertical_scroll_state.setPosition vs } }
      else { a with profiles := profiles }
  | some SettingConfig.Cluster =>
      let previously := a.clusters.state.selected
      let clusters := a.clusters.next
      if clusters.state.selected ≠ previously then
        let vs := usizeSatAdd a.cluster_box.vertical_scroll 1
        { a with clusters := clusters
                 cluster_box := { vertical_scroll := vs
                                  vertical_scroll_state :=
                                    a.cluster_box.vertical_scroll_state.setPosition vs } }
      else { a with clusters := clusters }
  | some SettingConfig.Service =>
      let previously := a.services.state.selected
      let services := a.services.next
      if services.state.selected ≠ previously then
        let vs := usizeSatAdd a.service_box.vertical_scroll 1
        { a with services := services
                 service_box := { vertical_scroll := vs
                                  vertical_scroll_state :=
                                    a.service_box.vertical_scroll_state.setPosition vs } }
      else { a with services := services }

/-- The `Up` arm of the `SettingConfig` handler (src/app.rs lines
325-378): retreat the active stage's list; `saturating_sub` the scroll by
one only when the selection actually changed. -/
def navUp (a : App) : App :=
  match a.setting_config with
  | none => a
  | some SettingConfig.Profile =>
      let previously := a.profiles.state.selected
      let profiles := a.profiles.previous
      if profiles.state.selected ≠ previously then
        let vs := a.profile_box.vertical_scroll - 1
        { a with profiles := profiles
                 profile_box := { vertical_scroll := vs
                                  vertical_scroll_state :=
                                    a.profile_box.vertical_scroll_state.setPosition vs } }
      else { a with profiles := profiles }
  | some SettingConfig.Cluster =>
      let previously := a.clusters.state.selected
      let clusters := a.clusters.previous
      if clusters.state.selected ≠ previously then
        let vs := a.cluster_box.vertical_scroll - 1
        { a with clusters := clusters
                 cluster_box := { vertical_scroll := vs
                                  vertical_scroll_state :=
                                    a.cluster_box.vertical_scroll_state.setPosition vs } }
      else { a with clusters := clusters }
  | some SettingConfig.Service =>
      let previously := a.services.state.selected
      let services := a.services.previous
      if services.state.selected ≠ previously then
        let vs := a.service_box.vertical_scroll - 1
        { a with services := services
                 service_box := { vertical_scroll := vs
                                  vertical_scroll_state :=
                                    a.service_box.vertical_scroll_state.setPosition vs } }
      else { a with services := services }

/-- The inline `SettingConfig` match of `run_app` (src/app.rs lines
223-380; identical logic to `setting_config_keymaps` in keymaps.rs). -/
def setting_config_handle (k : KeyCode) (a : App) : App :=
  match k with
  | KeyCode.esc => { a with current_screen := CurrentScreen.Main, setting_config := none }
  | KeyCode.tab => a.toggle_setting
  | KeyCode.char c =>
      if c = 'q' then { a with current_screen := CurrentScreen.Main, setting_config := none }
      else a
  | KeyCode.enter => confirmStage a
  | KeyCode.down => navDown a
  | KeyCode.up => navUp a
  | _ => a

/-- Result of dispatching one key press in `run_app`: either the loop
continues with the new state, or `run_app` returns (the user-confirmed
exit, `Ok(true)`). -/
inductive KeyResult where
  | cont (a : App)
  | exit (a : App)
  deriving Repr, DecidableEq

/-- The per-screen key dispatch of `run_app` (src/app.rs lines 210-381).
`Exiting`: `y` returns from `run_app`, `n`/`q` go back to `Main`.  The
dispatch for `LogDetails` is not present in app.rs's match (the enum there
lacks the variant); it is taken from `log_details_keymaps` in keymaps.rs,
the handler written for that screen. -/
def handleKey (a : App) (k : KeyCode) : KeyResult :=
  match a.current_screen with
  | CurrentScreen.Main => KeyResult.cont (main_screen_keymaps k a)
  | CurrentScreen.Exiting =>
      match k with
      | KeyCode.char c =>
          if c = 'y' then KeyResult.exit a
          else if c = 'n' ∨ c = 'q' then
            KeyResult.cont { a with current_screen := CurrentScreen.Main }
          else KeyResult.cont a
      | _ => KeyResult.cont a
  | CurrentScreen.SettingConfig => KeyResult.cont (setting_config_handle k a)
  | CurrentScreen.LogDetails => KeyResult.cont (log_details_keymaps k a)

/-- An ECS `Cluster` record as consumed by `on_tick`: only the
`cluster_name()` accessor is used (it returns `Option<&str>`). -/
structure EcsCluster where
  cluster_name : Option String
  deriving Repr, DecidableEq

/-- `DescribeClustersOutput` as consumed by `on_tick`: `clusters` is an
`Option<Vec<Cluster>>`. -/
structure DescribeClustersOutput where
  clusters : Option (List EcsCluster)
  deriving Repr, DecidableEq

/-- One entry of `Service::events()` as consumed by `get_events`
(`created_at()` and `message()` both return options). -/
structure ServiceEvent where
  created_at : Option String
  message : Option String
  deriving Repr, DecidableEq

/-- An ECS `Service` record as consumed by `on_tick`/`get_events`. -/
structure EcsService where
  service_name : Option String
  events : List ServiceEvent
  deriving Repr, DecidableEq

/-- `DescribeServicesOutput` as consumed by `on_tick`: `services` is an
`Option<Vec<Service>>`. -/
structure DescribeServicesOutput where
  services : Option (List EcsService)
  deriving Repr, DecidableEq

/-- `get_events` from `src/main.rs` (imported by app.rs; absent from
aws_utils.rs in this snapshot): format every event of the service as
`[created_at] message`.  The two `unwrap`s panic when a field is missing;
a panic is modelled as `none`. -/
def get_events (s : EcsService) : Option (List String) :=
  s.events.mapM (fun e =>
    match e.created_at, e.message with
    | some t, some m => some ("[" ++ t ++ "] " ++ m)
    | _, _ => none)

/-- The provider responses available to one tick: one `Except` per
fallible collaborator call that `on_tick` can make.  `get_services` is
called in two distinct places (the Browsing events branch and the Service
stage branch), hence two fields. -/
structure TickOracle where
  profilesResult : Except Unit (List String)
  clustersResult : Except Unit DescribeClustersOutput
  servicesMainResult : Except Unit DescribeServicesOutput
  servicesCfgResult : Except Unit DescribeServicesOutput
  deriving Repr

/-- The provider calls a tick issues, with the arguments the source passes
(for the AWS client calls, the `profile_name` the client was built with). -/
inductive ACall where
  | listProfiles
  | getServicesMain (profile cluster : String)
  | getEventsOf (serviceName : Option String)
  | listClusters (profile : String)
  | listServicesCfg (profile cluster : String)
  deriving Repr, DecidableEq

/-- Branch 1 of `on_tick` (src/app.rs lines 399-429): while on `Main` with
the full triple committed and the event log empty, fetch the service's
events; `if let Ok`/`if let Some` failures fall through silently, and a
successful `get_events` installs via `from_iter` and updates the event
scrollbar's content length.  `none` models a panic. -/
def tick_main (a : App) (o : TickOracle) : Option (App × List ACall) :=
  match a.current_screen with
  | CurrentScreen.Main =>
      if (!a.profile.isEmpty) && (!a.cluster.isEmpty) && (!a.service.isEmpty)
          && a.service_events.items.isEmpty then
        let call := ACall.getServicesMain a.profile a.cluster
        match o.servicesMainResult with
        | Except.error _ => some (a, [call])
        | Except.ok out =>
            match out.services with
            | none => some (a, [call])
            | some services =>
                match services.find? (fun s => s.service_name.getD "" == a.service) with
                | none => some (a, [call])
                | some sobj =>
                    match get_events sobj with
                    | none => none
                    | some events =>
                        let newList := OptionList.from_iter events
                        some ({ a with
                                  service_events := newList
                                  event_box := { a.event_box with
                                    vertical_scroll_state :=
                                      a.event_box.vertical_scroll_state.setContentLength
                                        newList.items.length } },
                              [call, ACall.getEventsOf sobj.service_name])
      else some (a, [])
  | _ => some (a, [])

/-- Branch 2 of `on_tick` (src/app.rs lines 430-434): entering the tick on
`SettingConfig` with a non-empty event log clears the event log. -/
def tick_invalidate (a : App) : App :=
  match a.current_screen with
  | CurrentScreen.SettingConfig =>
      if !a.service_events.items.isEmpty then { a with service_events := OptionList.new }
      else a
  | _ => a

/-- Branches 3-5 of `on_tick` (src/app.rs lines 435-498): the per-stage
fetches, guarded only by `setting_config` and the upstream commits.  The
listing branches `unwrap()` the provider result and the nested options, so
any failure there is a panic (`none`); the `Cluster` and `Service`
branches also `unwrap()` `self.profiles.selected()` to build the client,
and pass that selection — not `self.profile` — as the profile name. -/
def tick_fetch (a : App) (o : TickOracle) : Option (App × List ACall) :=
  match a.setting_config with
  | none => some (a, [])
  | some SettingConfig.Profile =>
      if a.profiles.items.isEmpty then
        match o.profilesResult with
        | Except.error _ => none
        | Except.ok ps =>
            let newList := OptionList.from_iter ps
            some ({ a with
                      profiles := newList
                      profile_box := { a.profile_box with
                        vertical_scroll_state :=
                          a.profile_box.vertical_scroll_state.setContentLength
                            newList.items.length } },
                  [ACall.listProfiles])
      else some (a, [])
  | some SettingConfig.Cluster =>
      if (!a.profile.isEmpty) && a.clusters.items.isEmpty then
        match a.profiles.selected with
        | none => none
        | some pname =>
            match o.clustersResult with
            | Except.error _ => none
            | Except.ok out =>
                match out.clusters with
                | none => none
                | some cls =>
                    match cls.mapM EcsCluster.cluster_name with
                    | none => none
                    | some names =>
                        let newList := OptionList.from_iter names
                        some ({ a with
                                  clusters := newList
                                  cluster_box := { a.cluster_box with
                                    vertical_scroll_state :=
                                      a.cluster_box.vertical_scroll_state.setContentLength
                                        newList.items.length } },
                              [ACall.listClusters pname])
      else some (a, [])
  | some SettingConfig.Service =>
      if (!a.profile.isEmpty) && (!a.cluster.isEmpty) && a.services.items.isEmpty then
        match a.profiles.selected with
        | none => none
        | some pname =>
            match o.servicesCfgResult with
            | Except.error _ => none
            | Except.ok out =>
                match out.services with
                | none => none
                | some svs =>
                    match svs.mapM EcsService.service_name with
                    | none => none
                    | some names =>
                        let newList := OptionList.from_iter names
                        some ({ a with
                                  services := newList
                                  service_box := { a.service_box with
                                    vertical_scroll_state :=
                                      a.service_box.vertical_scroll_state.setContentLength
                                        newList.items.length } },
                              [ACall.listServicesCfg pname a.cluster])
      else some (a, [])

/-- `App::on_tick` (src/app.rs lines 399-499): the three blocks run in
source order on the same mutable state.  The result carries the provider
calls issued; `none` models a panic, which aborts the process. -/
def on_tick (a : App) (o : TickOracle) : Option (App × List ACall) :=
  match tick_main a o with
  | none => none
  | some (a1, c1) =>
      match tick_fetch (tick_invalidate a1) o with
      | none => none
      | some (a3, c3) => some (a3, c1 ++ c3)

/-- The states the scheduler loop of `run_app` can reach from `App::new()`
by dispatching key presses (that do not return from the loop) and running
ticks (that do not panic), with arbitrary provider responses. -/
inductive Reachable : App → Prop where
  | init : Reachable App.new
  | key (a : App) (k : KeyCode) (a' : App) :
      Reachable a → handleKey a k = KeyResult.cont a' → Reachable a'
  | tick (a : App) (o : TickOracle) (a' : App) (calls : List ACall) :
      Reachable a → on_tick a o = some (a', calls) → Reachable a'

/-- The state a non-returning key dispatch continues with (used to spell
out concrete traces of the loop). -/
def keyState (a : App) (k : KeyCode) : App :=
  match handleKey a k with
  | KeyResult.cont a' => a'
  | KeyResult.exit a' => a'

/-- The state a non-panicking tick ends in (used to spell out concrete
traces of the loop). -/
def tickState (a : App) (o : TickOracle) : App :=
  match on_tick a o with
  | some r => r.1
  | none => a

/-- An oracle whose profile listing succeeds with `["a", "b"]` and whose
other calls fail. -/
def oProfiles : TickOracle :=
  { profilesResult := Except.ok ["a", "b"]
    clustersResult := Except.error ()
    servicesMainResult := Except.error ()
    servicesCfgResult := Except.error () }

/-- An oracle whose cluster listing succeeds with clusters `c1`, `c2` and
whose other calls fail. -/
def oClusters : TickOracle :=
  { profilesResult := Except.error ()
    clustersResult := Except.ok { clusters := some [{ cluster_name := some "c1" },
                                                    { cluster_name := some "c2" }] }
    servicesMainResult := Except.error ()
    servicesCfgResult := Except.error () }

/-- An oracle on which every provider call fails. -/
def oFail : TickOracle :=
  { profilesResult := Except.error ()
    clustersResult := Except.error ()
    servicesMainResult := Except.error ()
    servicesCfgResult := Except.error () }

/-- Trace: press `c` on the start state — open configuration, stage
`Profile`, no list loaded yet. -/
def s1 : App := keyState App.new (KeyCode.char 'c')

/-- Trace: first tick loads the profile list `["a", "b"]` (selection lands
on index 0). -/
def s2 : App := tickState s1 oProfiles

/-- Trace: `Enter` commits profile `"a"` and moves the stage to
`Cluster`. -/
def s3 : App := keyState s2 KeyCode.enter

/-- Trace (stale-selection branch): `Tab` cycles the stage to `Service`. -/
def u1 : App := keyState s3 KeyCode.tab

/-- Trace: a second `Tab` cycles the stage back to `Profile`. -/
def u2 : App := keyState u1 KeyCode.tab

/-- Trace: `Down` moves the profile selection to `"b"` without
committing it. -/
def u3 : App := keyState u2 KeyCode.down

/-- Trace: `Tab` returns to stage `Cluster` — with `"a"` still committed
and the cluster list still empty, but the profile list selection on
`"b"`. -/
def u4 : App := keyState u3 KeyCode.tab

/-- Trace (scroll-survives-install branch): from `s3` a tick loads the
cluster list `["c1", "c2"]`. -/
def t4 : App := tickState s3 oClusters

/-- Trace: `Down` scrolls the cluster list (vertical_scroll becomes 1). -/
def t5 : App := keyState t4 KeyCode.down

/-- Trace: `Tab` cycles the stage to `Service`. -/
def t6 : App := keyState t5 KeyCode.tab

/-- Trace: `Tab` cycles the stage to `Profile`. -/
def t7 : App := keyState t6 KeyCode.tab

/-- Trace: `Enter` re-commits profile `"a"`, clearing the cluster list but
leaving the cluster box scroll at 1. -/
def t8 : App := keyState t7 KeyCode.enter

/-! ## Basic lemmas about the list model -/

/-- For a non-empty list, the wrapped `len - 1` really is `len - 1` modulo
nothing that matters: it never exceeds `len - 1`. -/
lemma usizeSub1_le (n : Nat) (h : 1 ≤ n) : usizeSub1 n ≤ n - 1 := by
  unfold usizeSub1 USIZE
  omega

/-- A selection produced by `selected()` pins down an in-range stored
index. -/
lemma selected_eq_some {l : OptionList} {p : String} (h : l.selected = some p) :
    ∃ i, l.state.selected = some i ∧ i < l.items.length := by
  unfold OptionList.selected at h
  cases hs : l.state.selected with
  | none => rw [hs] at h; cases h
  | some i =>
      rw [hs] at h
      exact ⟨i, rfl, (List.get?_eq_some.mp h).1⟩

/-- An in-range stored index makes `selected()` return an element. -/
lemma selected_isSome {l : OptionList} {i : Nat}
    (hsel : l.state.selected = some i) (hlt : i < l.items.length) :
    l.selected.isSome = true := by
  unfold OptionList.selected
  rw [hsel]
  simp only
  rw [List.get?_eq_get hlt]
  rfl

/-- `next()` keeps an in-range stored selection in range (the list itself
is unchanged). -/
lemma next_selected_in_range {l : OptionList} {i : Nat}
    (hsel : l.state.selected = some i) (hlt : i < l.items.length) :
    ∃ j, (l.next).state.selected = some j ∧ j < l.items.length := by
  unfold OptionList.next ListState.select
  rw [hsel]
  by_cases hc : i < usizeSub1 l.items.length
  · refine ⟨i + 1, by simp [hc], ?_⟩
    have h1 : 1 ≤ l.items.length := Nat.one_le_of_lt (Nat.lt_of_le_of_lt (Nat.zero_le i) hlt)
    have h2 := usizeSub1_le l.items.length h1
    omega
  · exact ⟨i, by simp [hc], hlt⟩

/-- `previous()` keeps an in-range stored selection in range. -/
lemma previous_selected_in_range {l : OptionList} {i : Nat}
    (hsel : l.state.selected = some i) (hlt : i < l.items.length) :
    ∃ j, (l.previous).state.selected = some j ∧ j < l.items.length := by
  unfold OptionList.previous ListState.select
  rw [hsel]
  by_cases hc : i > 0
  · exact ⟨i - 1, by simp [hc], by omega⟩
  · exact ⟨i, by simp [hc], hlt⟩

/-! ## The committed-profile invariant -/

/-- Whenever a profile has been committed, the Profile list still holds an
in-range stored selection (so `profiles.selected()` is `Some` and the
`unwrap`s in the loader's `Cluster`/`Service` branches succeed). -/
def Inv (a : App) : Prop :=
  a.profile.isEmpty = false →
    ∃ i, a.profiles.state.selected = some i ∧ i < a.profiles.items.length

/-- The invariant only looks at `profile` and `profiles`. -/
lemma inv_congr {a a' : App} (h1 : a'.profile = a.profile)
    (h2 : a'.profiles = a.profiles) (h : Inv a) : Inv a' := by
  intro hp
  rw [h2]
  exact h (h1 ▸ hp)

lemma inv_main_keymaps (k : KeyCode) (a : App) (h : Inv a) :
    Inv (main_screen_keymaps k a) := by
  unfold main_screen_keymaps
  repeat' split
  all_goals exact h

lemma inv_log_details_keymaps (k : KeyCode) (a : App) (h : Inv a) :
    Inv (log_details_keymaps k a) := by
  unfold log_details_keymaps
  repeat' split
  all_goals exact h

lemma inv_toggle_setting (a : App) (h : Inv a) : Inv a.toggle_setting := by
  unfold App.toggle_setting
  repeat' split
  all_goals exact h

lemma inv_confirmStage (a : App) (h : Inv a) : Inv (confirmStage a) := by
  unfold confirmStage
  split
  · exact h
  · split
    · rename_i p hsel
      intro _
      exact selected_eq_some hsel
    · exact h
  · split <;> exact h
  · split <;> exact h

lemma inv_navDown (a : App) (h : Inv a) : Inv (navDown a) := by
  unfold navDown
  split
  · exact h
  · dsimp only
    split
    · intro hp
      obtain ⟨i, hsel, hlt⟩ := h hp
      exact next_selected_in_range hsel hlt
    · intro hp
      obtain ⟨i, hsel, hlt⟩ := h hp
      exact next_selected_in_range hsel hlt
  · dsimp only
    split <;> exact h
  · dsimp only
    split <;> exact h

lemma inv_navUp (a : App) (h : Inv a) : Inv (navUp a) := by
  unfold navUp
  split
  · exact h
  · dsimp only
    split
    · intro hp
      obtain ⟨i, hsel, hlt⟩ := h hp
      exact previous_selected_in_range hsel hlt
    · intro hp
      obtain ⟨i, hsel, hlt⟩ := h hp
      exact previous_selected_in_range hsel hlt
  · dsimp only
    split <;> exact h
  · dsimp only
    split <;> exact h

lemma inv_setting_config_handle (k : KeyCode) (a : App) (h : Inv a) :
    Inv (setting_config_handle k a) := by
  unfold setting_config_handle
  split
  · exact h
  · exact inv_toggle_setting a h
  · split <;> exact h
  · exact inv_confirmStage a h
  · exact inv_navDown a h
  · exact inv_navUp a h
  · exact h

/-- Every key dispatch that continues the loop preserves the invariant. -/
lemma inv_handleKey {a : App} {k : KeyCode} {a' : App}
    (hstep : handleKey a k = KeyResult.cont a') (h : Inv a) : Inv a' := by
  unfold handleKey at hstep
  split at hstep
  · cases hstep
    exact inv_main_keymaps k a h
  · split at hstep
    · split at hstep
      · cases hstep
      · split at hstep
        · cases hstep
          exact h
        · cases hstep
          exact h
    · cases hstep
      exact h
  · cases hstep
    exact inv_setting_config_handle k a h
  · cases hstep
    exact inv_log_details_keymaps k a h

lemma inv_tick_main {a : App} {o : TickOracle} {a' : App} {c : List ACall}
    (hstep : tick_main a o = some (a', c)) (h : Inv a) : Inv a' := by
  unfold tick_main at hstep
  repeat' split at hstep
  all_goals cases hstep
  all_goals exact h

lemma inv_tick_invalidate (a : App) (h : Inv a) : Inv (tick_invalidate a) := by
  unfold tick_invalidate
  repeat' split
  all_goals exact h

lemma inv_tick_fetch {a : App} {o : TickOracle} {a' : App} {c : List ACall}
    (hstep : tick_fetch a o = some (a', c)) (h : Inv a) : Inv a' := by
  unfold tick_fetch at hstep
  split at hstep
  · cases hstep
    exact h
  · split at hstep
    · rename_i hempty
      split at hstep
      · cases hstep
      · cases hstep
        intro hp
        obtain ⟨i, _, hlt⟩ := h hp
        rw [List.isEmpty_iff.mp hempty] at hlt
        cases hlt
    · cases hstep
      exact h
  · repeat' split at hstep
    all_goals cases hstep
    all_goals exact h
  · repeat' split at hstep
    all_goals cases hstep
    all_goals exact h

lemma inv_on_tick {a : App} {o : TickOracle} {a' : App} {c : List ACall}
    (hstep : on_tick a o = some (a', c)) (h : Inv a) : Inv a' := by
  unfold on_tick at hstep
  split at hstep
  · cases hstep
  · rename_i a1 c1 hmain
    split at hstep
    · cases hstep
    · rename_i a3 c3 hfetch
      cases hstep
      exact inv_tick_fetch hfetch (inv_tick_invalidate a1 (inv_tick_main hmain h))

/-- The invariant holds in every reachable state. -/
lemma inv_reachable {a : App} (h : Reachable a) : Inv a := by
  induction h with
  | init => intro hp; cases hp
  | key a k a' _ hstep ih => exact inv_handleKey hstep ih
  | tick a o a' calls _ hstep ih => exact inv_on_tick hstep ih

/-! ## Frame lemmas for the tick phases -/

/-- The invalidation phase touches nothing but the event log. -/
lemma tick_invalidate_frame (a : App) :
    (tick_invalidate a).profile = a.profile ∧
    (tick_invalidate a).profiles = a.profiles ∧
    (tick_invalidate a).cluster = a.cluster ∧
    (tick_invalidate a).clusters = a.clusters ∧
    (tick_invalidate a).service = a.service ∧
    (tick_invalidate a).services = a.services ∧
    (tick_invalidate a).current_screen = a.current_screen ∧
    (tick_invalidate a).setting_config = a.setting_config ∧
    (tick_invalidate a).profile_box = a.profile_box ∧
    (tick_invalidate a).cluster_box = a.cluster_box := by
  unfold tick_invalidate
  repeat' split
  all_goals simp

/-- The per-stage fetch phase never touches the event log. -/
lemma tick_fetch_events_frame {a : App} {o : TickOracle} {a' : App} {c : List ACall}
    (hstep : tick_fetch a o = some (a', c)) :
    a'.service_events = a.service_events := by
  unfold tick_fetch at hstep
  repeat' split at hstep
  all_goals cases hstep
  all_goals rfl

/-- On the `SettingConfig` screen the events branch of the tick is inert. -/
lemma tick_main_config (a : App) (o : TickOracle)
    (h : a.current_screen = CurrentScreen.SettingConfig) :
    tick_main a o = some (a, []) := by
  unfold tick_main
  rw [h]

/-- On the `SettingConfig` screen the whole tick is the per-stage fetch
phase applied to the invalidated state. -/
lemma on_tick_config_eq (a : App) (o : TickOracle)
    (h : a.current_screen = CurrentScreen.SettingConfig) :
    on_tick a o = tick_fetch (tick_invalidate a) o := by
  unfold on_tick
  rw [tick_main_config a o h]
  dsimp only
  cases hf : tick_fetch (tick_invalidate a) o with
  | none => rfl
  | some r => cases r; simp

/-- After the invalidation phase of a `SettingConfig` tick the event log
is empty. -/
lemma tick_invalidate_empties (a : App)
    (h : a.current_screen = CurrentScreen.SettingConfig) :
    (tick_invalidate a).service_events.items = [] := by
  unfold tick_invalidate
  rw [h]
  dsimp only
  split
  · rfl
  · rename_i hb
    simp only [Bool.not_eq_true, Bool.not_eq_true', Bool.not_eq_false] at hb
    exact List.isEmpty_iff.mp hb

/-! ## Reachability of the concrete traces -/

lemma reach_s1 : Reachable s1 :=
  Reachable.key App.new (KeyCode.char 'c') s1 Reachable.init (by decide)

lemma reach_s2 : Reachable s2 :=
  Reachable.tick s1 oProfiles s2 [ACall.listProfiles] reach_s1 (by decide)

lemma reach_s3 : Reachable s3 :=
  Reachable.key s2 KeyCode.enter s3 reach_s2 (by decide)

lemma reach_u4 : Reachable u4 :=
  Reachable.key u3 KeyCode.tab u4
    (Reachable.key u2 KeyCode.down u3
      (Reachable.key u1 KeyCode.tab u2
        (Reachable.key s3 KeyCode.tab u1 reach_s3 (by decide))
        (by decide))
      (by decide))
    (by decide)

lemma reach_t8 : Reachable t8 :=
  Reachable.key t7 KeyCode.enter t8
    (Reachable.key t6 KeyCode.tab t7
      (Reachable.key t5 KeyCode.tab t6
        (Reachable.key t4 KeyCode.down t5
          (Reachable.tick s3 oClusters t4 [ACall.listClusters "a"] reach_s3 (by decide))
          (by decide))
        (by decide))
      (by decide))
    (by decide)

/-! ## Claim theorems -/

/-- A two-element list with the selection on the last index, for concrete
witnesses. -/
def twoList : OptionList :=
  { items := ["x", "y"], state := { offset := 0, selected := some 1 } }

/-- C6: on a non-empty list, `next()` at the last index and `previous()`
at index 0 leave the selection where it is (clamp, not wrap) and leave the
items untouched. -/
theorem list_navigation_clamps (l : OptionList) (h : l.items ≠ []) :
    (l.state.selected = some (l.items.length - 1) →
      (l.next).state.selected = some (l.items.length - 1) ∧ (l.next).items = l.items) ∧
    (l.state.selected = some 0 →
      (l.previous).state.selected = some 0 ∧ (l.previous).items = l.items) := by
  have h1 : 1 ≤ l.items.length := List.length_pos.mpr h
  have h2 := usizeSub1_le l.items.length h1
  constructor
  · intro hsel
    unfold OptionList.next ListState.select
    rw [hsel]
    dsimp only
    rw [if_neg (by omega)]
    exact ⟨rfl, rfl⟩
  · intro hsel
    unfold OptionList.previous ListState.select
    rw [hsel]
    dsimp only
    rw [if_neg (by omega)]
    exact ⟨rfl, rfl⟩

/-- Witness for C6 at the concrete two-element list with the selection on
the last index. -/
theorem list_navigation_clamps_witness :
    (twoList.next).state.selected = some (twoList.items.length - 1) ∧
    (twoList.next).items = twoList.items :=
  (list_navigation_clamps twoList (by decide)).1 (by decide)

/-- C7 (code bug): on an empty list, `next()` is not a no-op.  The first
call stores index 0 (the stored selection is no longer `None`), and the
second call evaluates `items.len() - 1` on length 0 — a debug build
panics on that subtraction, a release build wraps to `usize::MAX` so the
stored index grows to 1, out of range of the empty list.  The spec's
"no-op on an empty list" does not hold. -/
theorem empty_list_next_not_noop :
    OptionList.new.items = [] ∧
    OptionList.new.state.selected = none ∧
    (OptionList.new.next).state.selected = some 0 ∧
    OptionList.new.next ≠ OptionList.new ∧
    ((OptionList.new.next).next).state.selected = some 1 := by
  decide

/-- The list belonging to the active configuration stage (the list whose
`selected()` the `Enter` handler consults). -/
def stage_list (a : App) : SettingConfig → OptionList
  | SettingConfig.Profile => a.profiles
  | SettingConfig.Cluster => a.clusters
  | SettingConfig.Service => a.services

/-- C9: pressing `Enter` in `SettingConfig` when the active stage's list
has no current selection changes nothing at all (the whole `App` state is
returned unchanged and the loop continues). -/
theorem confirm_without_selection_noop (a : App) (st : SettingConfig)
    (hscreen : a.current_screen = CurrentScreen.SettingConfig)
    (hstage : a.setting_config = some st)
    (hsel : (stage_list a st).selected = none) :
    handleKey a KeyCode.enter = KeyResult.cont a := by
  unfold handleKey
  rw [hscreen]
  unfold setting_config_handle confirmStage
  rw [hstage]
  cases st
  all_goals dsimp only [stage_list] at hsel
  all_goals rw [hsel]

/-- Witness for C9: `Enter` on the freshly opened configuration screen
(empty Profile list) is the identity. -/
theorem confirm_without_selection_noop_witness :
    handleKey s1 KeyCode.enter = KeyResult.cont s1 :=
  confirm_without_selection_noop s1 SettingConfig.Profile (by decide) (by decide) (by decide)

/-- C3: pressing `Enter` in `SettingConfig` at stage `Profile` with a
selection `p` commits `p` into `profile`, moves the stage to `Cluster`,
and resets the committed `cluster`/`service`, the Cluster and Service
lists, and the EventLog — everything else unchanged. -/
theorem confirm_profile_commits_and_cascades (a : App) (p : String)
    (hscreen : a.current_screen = CurrentScreen.SettingConfig)
    (hstage : a.setting_config = some SettingConfig.Profile)
    (hsel : a.profiles.selected = some p) :
    handleKey a KeyCode.enter = KeyResult.cont
      { a with profile := p
               setting_config := some SettingConfig.Cluster
               clusters := OptionList.new
               services := OptionList.new
               cluster := ""
               service := ""
               service_events := OptionList.new } := by
  unfold handleKey
  rw [hscreen]
  unfold setting_config_handle confirmStage
  rw [hstage, hsel, hscreen]

/-- Witness for C3 at the loaded-profile trace state: committing `"a"`. -/
theorem confirm_profile_commits_and_cascades_witness :
    handleKey s2 KeyCode.enter = KeyResult.cont
      { s2 with profile := "a"
                setting_config := some SettingConfig.Cluster
                clusters := OptionList.new
                services := OptionList.new
                cluster := ""
                service := ""
                service_events := OptionList.new } :=
  confirm_profile_commits_and_cascades s2 "a" (by decide) (by decide) (by decide)

/-- A state with the full `(profile, cluster, service)` triple committed
and the event log empty, for concrete witnesses. -/
def committedApp : App :=
  { App.new with profile := "dev", cluster := "web", service := "api" }

/-- C2 (counterexample): a fetch failure does terminate the application.
In the reachable state `s1` (configuration just opened, stage `Profile`,
profile list empty) the loader's profile-listing branch runs, and a failed
`get_profiles()` hits the `unwrap()` — the tick panics (`none`), which is
not the user-confirmed exit. -/
theorem listing_fetch_failure_panics_cex :
    Reachable s1 ∧
    s1.current_screen = CurrentScreen.SettingConfig ∧
    s1.setting_config = some SettingConfig.Profile ∧
    s1.profiles.items = [] ∧
    on_tick s1 oFail = none :=
  ⟨reach_s1, by decide, by decide, by decide, by decide⟩

/-- C2 (amended): only the Browsing events branch recovers a failed
provider call.  When the events guard holds and `get_services` fails, the
tick completes with the state unchanged — the event log stays empty, so
the same fetch is retried on the following tick. -/
theorem events_fetch_failure_recovered (a : App) (o : TickOracle)
    (hscreen : a.current_screen = CurrentScreen.Main)
    (hcfg : a.setting_config = none)
    (hp : a.profile.isEmpty = false)
    (hc : a.cluster.isEmpty = false)
    (hs : a.service.isEmpty = false)
    (he : a.service_events.items.isEmpty = true)
    (herr : o.servicesMainResult = Except.error ()) :
    on_tick a o = some (a, [ACall.getServicesMain a.profile a.cluster]) := by
  have hmain : tick_main a o = some (a, [ACall.getServicesMain a.profile a.cluster]) := by
    unfold tick_main
    rw [hscreen]
    dsimp only
    rw [if_pos (by simp [hp, hc, hs, he]), herr]
  have hinv : tick_invalidate a = a := by
    unfold tick_invalidate
    rw [hscreen]
  have hfetch : tick_fetch a o = some (a, []) := by
    unfold tick_fetch
    rw [hcfg]
  unfold on_tick
  rw [hmain]
  dsimp only
  rw [hinv, hfetch]
  simp

/-- Witness for C2 (amended) at the committed triple with a failing
provider. -/
theorem events_fetch_failure_recovered_witness :
    on_tick committedApp oFail
      = some (committedApp, [ACall.getServicesMain committedApp.profile committedApp.cluster]) :=
  events_fetch_failure_recovered committedApp oFail (by decide) (by decide) (by decide)
    (by decide) (by decide) (by decide) rfl

/-- C4: on every tick that starts on the `SettingConfig` screen the whole
tick is the per-stage fetch phase run on the invalidated state (branch 2
is evaluated before branches 3-5), the invalidated state has an empty
event log, and the fetch phase never repopulates it — so the tick ends
with an empty event log. -/
theorem invalidate_before_stage_fetch (a : App) (o : TickOracle)
    (h : a.current_screen = CurrentScreen.SettingConfig) :
    on_tick a o = tick_fetch (tick_invalidate a) o ∧
    (tick_invalidate a).service_events.items = [] ∧
    (∀ a' calls, on_tick a o = some (a', calls) → a'.service_events.items = []) := by
  have hempty := tick_invalidate_empties a h
  have heq := on_tick_config_eq a o h
  refine ⟨heq, hempty, ?_⟩
  intro a' calls hstep
  rw [heq] at hstep
  rw [tick_fetch_events_frame hstep]
  exact hempty

/-- Witness for C4 at the freshly opened configuration state. -/
theorem invalidate_before_stage_fetch_witness :
    on_tick s1 oProfiles = tick_fetch (tick_invalidate s1) oProfiles ∧
    (tick_invalidate s1).service_events.items = [] ∧
    (∀ a' calls, on_tick s1 oProfiles = some (a', calls) → a'.service_events.items = []) :=
  invalidate_before_stage_fetch s1 oProfiles (by decide)

/-- A service record with three events, for the events-branch scenario. -/
def c1Service : EcsService :=
  { service_name := some "api"
    events := [{ created_at := some "t1", message := some "m1" },
               { created_at := some "t2", message := some "m2" },
               { created_at := some "t3", message := some "m3" }] }

/-- The three formatted lines `get_events` produces for `c1Service`. -/
def c1Lines : List String := ["[t1] m1", "[t2] m2", "[t3] m3"]

/-- An oracle whose `get_services` call on the Browsing screen succeeds
with the single service `c1Service`. -/
def eventsOracle : TickOracle :=
  { profilesResult := Except.error ()
    clustersResult := Except.error ()
    servicesMainResult := Except.ok { services := some [c1Service] }
    servicesCfgResult := Except.error () }

/-- C1 (counterexample): on a Browsing tick with the triple committed and
the event log empty, a successful 3-line event fetch installs the lines
with the selection on index 0, not on index 2 — `from_iter` selects the
first entry, it does not tail. -/
theorem events_install_first_not_last_cex :
    committedApp.current_screen = CurrentScreen.Main ∧
    committedApp.profile = "dev" ∧ committedApp.cluster = "web" ∧
    committedApp.service = "api" ∧ committedApp.service_events.items = [] ∧
    (on_tick committedApp eventsOracle).map
        (fun r => (r.1.service_events.items.length, r.1.service_events.state.selected))
      = some (3, some 0) ∧
    (some 0 : Option Nat) ≠ some 2 := by
  refine ⟨rfl, rfl, rfl, rfl, rfl, ?_, by decide⟩
  rfl

/-- C1 (amended): on a Browsing tick with the triple committed and the
event log empty, a successful event fetch installs the returned lines
into the EventLog, updates the event viewport's content length, and
leaves the selection on index 0 (the first line), not on the last. -/
theorem events_install_selects_index_zero (a : App) (o : TickOracle)
    (out : DescribeServicesOutput) (svs : List EcsService) (sobj : EcsService)
    (evs : List String)
    (hscreen : a.current_screen = CurrentScreen.Main)
    (hcfg : a.setting_config = none)
    (hp : a.profile.isEmpty = false)
    (hc : a.cluster.isEmpty = false)
    (hs : a.service.isEmpty = false)
    (he : a.service_events.items.isEmpty = true)
    (hok : o.servicesMainResult = Except.ok out)
    (hsvs : out.services = some svs)
    (hfind : svs.find? (fun s => s.service_name.getD "" == a.service) = some sobj)
    (hev : get_events sobj = some evs)
    (hne : evs ≠ []) :
    on_tick a o = some
      ({ a with service_events := OptionList.from_iter evs
                event_box := { a.event_box with vertical_scroll_state :=
                  a.event_box.vertical_scroll_state.setContentLength evs.length } },
       [ACall.getServicesMain a.profile a.cluster, ACall.getEventsOf sobj.service_name]) ∧
    (OptionList.from_iter evs).state.selected = some 0 := by
  have hne' : evs.isEmpty = false := by
    cases hevs : evs.isEmpty
    · rfl
    · exact absurd (List.isEmpty_iff.mp hevs) hne
  constructor
  · have hmain : tick_main a o = some
        ({ a with service_events := OptionList.from_iter evs
                  event_box := { a.event_box with vertical_scroll_state :=
                    a.event_box.vertical_scroll_state.setContentLength evs.length } },
         [ACall.getServicesMain a.profile a.cluster, ACall.getEventsOf sobj.service_name]) := by
      unfold tick_main
      rw [hscreen]
      dsimp only
      rw [if_pos (by simp [hp, hc, hs, he]), hok]
      dsimp only
      rw [hsvs]
      dsimp only
      rw [hfind]
      dsimp only
      rw [hev]
      dsimp only
      exact rfl
    have hinv : tick_invalidate
        { a with service_events := OptionList.from_iter evs
                 event_box := { a.event_box with vertical_scroll_state :=
                   a.event_box.vertical_scroll_state.setContentLength evs.length } }
        = { a with service_events := OptionList.from_iter evs
                   event_box := { a.event_box with vertical_scroll_state :=
                     a.event_box.vertical_scroll_state.setContentLength evs.length } } := by
      unfold tick_invalidate
      dsimp only
      rw [hscreen]
    have hfetch : tick_fetch
        { a with service_events := OptionList.from_iter evs
                 event_box := { a.event_box with vertical_scroll_state :=
                   a.event_box.vertical_scroll_state.setContentLength evs.length } } o
        = some
          ({ a with service_events := OptionList.from_iter evs
                    event_box := { a.event_box with vertical_scroll_state :=
                      a.event_box.vertical_scroll_state.setContentLength evs.length } },
           []) := by
      unfold tick_fetch
      dsimp only
      rw [hcfg]
    unfold on_tick
    rw [hmain]
    dsimp only
    rw [hinv, hfetch]
    simp
  · unfold OptionList.from_iter
    rw [hne']
    rfl

/-- Witness for C1 (amended) at the committed triple with a 3-line
result. -/
theorem events_install_selects_index_zero_witness :
    on_tick committedApp eventsOracle = some
      ({ committedApp with
           service_events := OptionList.from_iter c1Lines
           event_box :=
             { committedApp.event_box with
                 vertical_scroll_state :=
                   committedApp.event_box.vertical_scroll_state.setContentLength
                     c1Lines.length } },
       [ACall.getServicesMain committedApp.profile committedApp.cluster,
        ACall.getEventsOf c1Service.service_name]) ∧
    (OptionList.from_iter c1Lines).state.selected = some 0 :=
  events_install_selects_index_zero committedApp eventsOracle
    { services := some [c1Service] } [c1Service] c1Service c1Lines
    (by decide) (by decide) (by decide) (by decide) (by decide) (by decide)
    rfl rfl rfl rfl (by decide)

/-- C5 (counterexample): in the reachable state `u4` the Cluster-branch
guard holds with committed profile `"a"`, yet the tick issues the cluster
listing under `"b"` — the profile list's current selection, moved after
the commit — not under the committed profile. -/
theorem cluster_fetch_stale_profile_cex :
    Reachable u4 ∧
    u4.current_screen = CurrentScreen.SettingConfig ∧
    u4.setting_config = some SettingConfig.Cluster ∧
    u4.profile = "a" ∧
    u4.clusters.items = [] ∧
    (on_tick u4 oClusters).map (fun r => r.2) = some [ACall.listClusters "b"] ∧
    ("b" : String) ≠ "a" :=
  ⟨reach_u4, by decide, by decide, by decide, by decide, by decide, by decide⟩

/-- C5 (amended): under the Cluster-branch guard the cluster listing is
issued under the Profile list's current selection
(`profiles.selected().unwrap()`); it equals the committed profile only
when the selection still points at it. -/
theorem cluster_fetch_uses_profile_list_selection (a : App) (o : TickOracle) (p : String)
    (hscreen : a.current_screen = CurrentScreen.SettingConfig)
    (hstage : a.setting_config = some SettingConfig.Cluster)
    (hp : a.profile.isEmpty = false)
    (hclusters : a.clusters.items = [])
    (hsel : a.profiles.selected = some p) :
    ∀ a' calls, on_tick a o = some (a', calls) → calls = [ACall.listClusters p] := by
  intro a' calls hstep
  obtain ⟨hfp, hfl, -, hfc, -, -, -, hfs, -, -⟩ := tick_invalidate_frame a
  rw [on_tick_config_eq a o hscreen] at hstep
  unfold tick_fetch at hstep
  rw [hfs, hstage] at hstep
  dsimp only at hstep
  rw [if_pos (by simp [hfp, hfc, hp, hclusters]), hfl, hsel] at hstep
  dsimp only at hstep
  repeat' split at hstep
  any_goals cases hstep
  any_goals rfl

/-- Witness for C5 (amended) right after the profile commit, where the
selection still points at the committed profile `"a"`. -/
theorem cluster_fetch_uses_profile_list_selection_witness :
    (on_tick s3 oClusters).map (fun r => r.2) = some [ACall.listClusters "a"] := by
  have hstep : on_tick s3 oClusters = some (t4, [ACall.listClusters "a"]) := by decide
  have hc := cluster_fetch_uses_profile_list_selection s3 oClusters "a" (by decide) (by decide)
    (by decide) (by decide) (by decide) t4 [ACall.listClusters "a"] hstep
  rw [hstep]
  exact congrArg some hc

/-- C8 (counterexample): installing a fresh fetch result does not reset
the stage's scroll offset.  In the reachable state `t8` the cluster list
is empty while the cluster box scroll is 1 (left over from before the
re-commit); after the tick installs `["c1", "c2"]`, selection index 0,
the scroll and the scrollbar position are still 1, not 0. -/
theorem install_does_not_reset_stage_scroll_cex :
    Reachable t8 ∧
    t8.setting_config = some SettingConfig.Cluster ∧
    t8.clusters.items = [] ∧
    t8.cluster_box.vertical_scroll = 1 ∧
    (on_tick t8 oClusters).map
        (fun r => (r.1.clusters.items, r.1.clusters.state.selected,
                   r.1.cluster_box.vertical_scroll,
                   r.1.cluster_box.vertical_scroll_state.position))
      = some (["c1", "c2"], some 0, 1, 1) ∧
    (1 : Nat) ≠ 0 :=
  ⟨reach_t8, by decide, by decide, by decide, by decide, by decide⟩

/-- C8 (amended): a fresh fetch result replaces the stage list wholesale —
selection index 0 when non-empty, `None` when empty, internal viewport
offset 0 — and the loader sets the scrollbar's content length to the new
length; but the stage's scroll offset (`vertical_scroll` and the
scrollbar position) keeps its prior value rather than being reset to 0. -/
theorem install_replaces_selects_zero_keeps_scroll (ps : List String) (a : App)
    (o : TickOracle)
    (hscreen : a.current_screen = CurrentScreen.SettingConfig)
    (hstage : a.setting_config = some SettingConfig.Profile)
    (hempty : a.profiles.items = [])
    (hok : o.profilesResult = Except.ok ps) :
    (OptionList.from_iter ps).items = ps ∧
    (OptionList.from_iter ps).state.selected = (if ps.isEmpty then none else some 0) ∧
    (OptionList.from_iter ps).state.offset = 0 ∧
    (on_tick a o).isSome = true ∧
    (∀ a' calls, on_tick a o = some (a', calls) →
      a'.profiles = OptionList.from_iter ps ∧
      a'.profile_box.vertical_scroll = a.profile_box.vertical_scroll ∧
      a'.profile_box.vertical_scroll_state.position
        = a.profile_box.vertical_scroll_state.position ∧
      a'.profile_box.vertical_scroll_state.content_length = ps.length) := by
  obtain ⟨hfp, hfl, -, -, -, -, -, hfs, hfb, -⟩ := tick_invalidate_frame a
  have hfsome : (tick_fetch (tick_invalidate a) o).isSome = true := by
    unfold tick_fetch
    rw [hfs, hstage]
    dsimp only
    rw [if_pos (by simp [hfl, hempty]), hok]
    exact rfl
  have hfacts : ∀ r : App × List ACall, tick_fetch (tick_invalidate a) o = some r →
      r.1.profiles = OptionList.from_iter ps ∧
      r.1.profile_box.vertical_scroll = a.profile_box.vertical_scroll ∧
      r.1.profile_box.vertical_scroll_state.position
        = a.profile_box.vertical_scroll_state.position ∧
      r.1.profile_box.vertical_scroll_state.content_length = ps.length := by
    intro r hf
    unfold tick_fetch at hf
    rw [hfs, hstage] at hf
    dsimp only at hf
    rw [if_pos (by simp [hfl, hempty]), hok] at hf
    dsimp only at hf
    cases hf
    refine ⟨rfl, ?_, ?_, rfl⟩
    · show (tick_invalidate a).profile_box.vertical_scroll = a.profile_box.vertical_scroll
      rw [hfb]
    · show ((tick_invalidate a).profile_box.vertical_scroll_state.setContentLength
          (OptionList.from_iter ps).items.length).position
        = a.profile_box.vertical_scroll_state.position
      rw [hfb]
      exact rfl
  have hfrom : (OptionList.from_iter ps).state
      = (if ps.isEmpty then ListState.default else ListState.default.select (some 0)) := rfl
  refine ⟨rfl, ?_, ?_, ?_, ?_⟩
  · rw [hfrom]
    cases hps : ps.isEmpty <;> simp [ListState.default, ListState.select]
  · rw [hfrom]
    cases hps : ps.isEmpty <;> simp [ListState.default, ListState.select]
  · rw [on_tick_config_eq a o hscreen]
    exact hfsome
  · intro a' calls hstep
    rw [on_tick_config_eq a o hscreen] at hstep
    exact hfacts (a', calls) hstep

/-- Witness for C8 (amended) at the freshly opened configuration state
with a two-profile fetch result. -/
theorem install_replaces_selects_zero_keeps_scroll_witness :
    (OptionList.from_iter ["a", "b"]).items = ["a", "b"] ∧
    (OptionList.from_iter ["a", "b"]).state.selected
      = (if (["a", "b"] : List String).isEmpty then none else some 0) ∧
    (OptionList.from_iter ["a", "b"]).state.offset = 0 ∧
    (on_tick s1 oProfiles).isSome = true ∧
    (∀ a' calls, on_tick s1 oProfiles = some (a', calls) →
      a'.profiles = OptionList.from_iter ["a", "b"] ∧
      a'.profile_box.vertical_scroll = s1.profile_box.vertical_scroll ∧
      a'.profile_box.vertical_scroll_state.position
        = s1.profile_box.vertical_scroll_state.position ∧
      a'.profile_box.vertical_scroll_state.content_length = (["a", "b"] : List String).length) :=
  install_replaces_selects_zero_keeps_scroll ["a", "b"] s1 oProfiles
    (by decide) (by decide) (by decide) rfl

/-- C10: in every reachable state with a committed (non-empty) profile,
the Profile list is non-empty with an in-range stored selection, so
`profiles.selected()` returns `Some` — the `unwrap`s in the loader's
Cluster- and Service-stage branches cannot fail. -/
theorem committed_profile_selection_valid (a : App) (h : Reachable a)
    (hp : a.profile.isEmpty = false) :
    a.profiles.items ≠ [] ∧
    (∃ i, a.profiles.state.selected = some i ∧ i < a.profiles.items.length) ∧
    a.profiles.selected.isSome = true := by
  obtain ⟨i, hsel, hlt⟩ := inv_reachable h hp
  refine ⟨?_, ⟨i, hsel, hlt⟩, selected_isSome hsel hlt⟩
  intro hnil
  rw [hnil] at hlt
  simp at hlt

/-- Witness for C10 at the reachable post-commit state `s3`
(profile `"a"` committed). -/
theorem committed_profile_selection_valid_witness :
    s3.profiles.items ≠ [] ∧
    (∃ i, s3.profiles.state.selected = some i ∧ i < s3.profiles.items.length) ∧
    s3.profiles.selected.isSome = true :=
  committed_profile_selection_valid s3 reach_s3 (by decide)

end LazyLogger
